import Mathlib

/-
Verification of the Polygon MCP tool adapters.

The repository exposes eight adapter functions (four OHLCV tools in
src/tools/ohlcv_tools.py and four technical-indicator tools in
src/tools/technical_indicator_tools.py) plus a tool-registration loop
(src/server.py, and register_tools in both tool modules).  Each adapter
checks a module-level API key, builds a query-parameter dict, performs one
HTTP GET and classifies the outcome into a result dict.

We embed this shallowly:
  * `Json` models decoded JSON values (Python objects after response.json()).
  * `PVal` models the values put into the `params` dict by the adapters
    (strings, ints, and the Python `None` object).
  * `HttpResult` models the outcome of the single `client.get(...)` call as
    the adapter observes it: a transport-level failure (httpx.RequestError),
    or a response with a status code, raw body text, and the JSON parse of
    that text (`none` when the body is not valid JSON).
  * Exceptions inside the `try` block are modelled with `Except PyExc`; the
    adapter boundary (`pyBoundary`) matches the except clauses of the source.
  * An adapter call is a `Call`: either `noRequest r` (the function returned
    `r` before any network I/O) or `request req k` (it issued `req` and
    classifies the transport outcome with `k`).
-/

namespace Polygon

/-- Decoded JSON values, i.e. the Python objects produced by `response.json()`. -/
inductive Json where
  | null
  | bool (b : Bool)
  | num (n : Int)
  | str (s : String)
  | arr (xs : List Json)
  | obj (fields : List (String × Json))

/-- Values placed into the `params` dict by the adapters: a string, an int,
or the Python `None` object. -/
inductive PVal where
  | str (s : String)
  | int (n : Int)
  | pyNone
  deriving DecidableEq, Repr

/-- Look up a key in a JSON object; `none` when absent or when the value is
not an object. -/
def Json.lookupKey : Json → String → Option Json
  | .obj fields, k => fields.lookup k
  | _, _ => none

/-- Python `k in data` for a decoded JSON object (False on non-dicts;
the source only reaches this test after a successful attribute access). -/
def Json.hasKey (j : Json) (k : String) : Bool :=
  match j with
  | .obj fields => fields.any (fun p => p.1 == k)
  | _ => false

/-- Python `data.get(k) == s` where `s` is a string literal: true exactly when
the key is present with that string value (comparisons with None or with
non-string values are just False in Python). -/
def Json.getEq (j : Json) (k s : String) : Bool :=
  match j.lookupKey k with
  | some (.str t) => t == s
  | _ => false

/-- Python `data.get(k)`: the Python `None` object (JSON null) when absent. -/
def Json.pyGet (j : Json) (k : String) : Json :=
  (j.lookupKey k).getD .null

/-- Python `data.get(k, d)`. -/
def Json.pyGetD (j : Json) (k : String) (d : Json) : Json :=
  (j.lookupKey k).getD d

/-- Python truthiness of a decoded JSON value. -/
def Json.pyTruthy : Json → Bool
  | .null => false
  | .bool b => b
  | .num n => n != 0
  | .str s => s != ""
  | .arr xs => !xs.isEmpty
  | .obj fields => !fields.isEmpty

/-- Whether a decoded JSON value is a dict. -/
def Json.isObj : Json → Bool
  | .obj _ => true
  | _ => false

/-- Exceptions that the try blocks of the adapters can raise. -/
inductive PyExc where
  | httpStatusError (status : Nat) (text : String) (body : Option Json)
  | requestError (detail : String)
  | other (detail : String)

/-- Outcome of the single `client.get(...)` call as observed by the adapter:
a transport failure (httpx.RequestError, carrying `str(e)`), or a response
with its HTTP status code, raw body text, and the JSON decoding of the body
(`none` when the body is not valid JSON, so `response.json()` raises). -/
inductive HttpResult where
  | requestError (detail : String)
  | response (status : Nat) (text : String) (body : Option Json)

/-- The outgoing HTTP GET request an adapter hands to the transport. -/
structure Request where
  url : String
  params : List (String × PVal)
  headers : List (String × String)

/-- An adapter invocation: either it returned `result` without touching the
network, or it issued exactly one GET request and classifies the transport
outcome with the given continuation. -/
inductive Call where
  | noRequest (result : Json)
  | request (req : Request) (classify : HttpResult → Json)

/-- The dict an adapter call returns once the transport outcome is known
(for a `noRequest` call the outcome is ignored). -/
def Call.outcome : Call → HttpResult → Json
  | .noRequest r, _ => r
  | .request _ k, r => k r

/-- Whether the call reached the network. -/
def Call.isRequest : Call → Bool
  | .noRequest _ => false
  | .request _ _ => true

/-- The query parameters of the request of the call (empty for `noRequest`). -/
def Call.params : Call → List (String × PVal)
  | .noRequest _ => []
  | .request req _ => req.params

/-- The headers of the request of the call (empty for `noRequest`). -/
def Call.headers : Call → List (String × String)
  | .noRequest _ => []
  | .request req _ => req.headers

/-- The URL of the request of the call (empty for `noRequest`). -/
def Call.url : Call → String
  | .noRequest _ => ""
  | .request req _ => req.url

/-- Python falsiness of the module-level `POLYGON_API_KEY` value
(`os.environ.get` result): `not POLYGON_API_KEY` is True when the variable
was absent or set to the empty string. -/
def apiKeyMissing : Option String → Bool
  | none => true
  | some s => s == ""

/-- Python `str(x).lower()` for an `Optional[bool]` argument, as used for the
`adjusted`, `include_otc` and `expand_underlying` parameters. -/
def pyStrOptBool : Option Bool → String
  | some true => "true"
  | some false => "false"
  | none => "none"

/-- Python `str(x)` for an `Optional[int]` argument, as used for the `limit`
parameter of `get_custom_bars` (`str(None)` is the string "None"). -/
def pyStrOptInt : Option Int → String
  | some n => toString n
  | none => "None"

/-- The raw value of an `Optional[str]` argument placed into a params dict
(Python `None` when unset). -/
def optStrPVal : Option String → PVal
  | some s => .str s
  | none => .pyNone

/-- The raw value of an `Optional[int]` argument placed into a params dict. -/
def optIntPVal : Option Int → PVal
  | some n => .int n
  | none => .pyNone

/-- Python truthiness of an `Optional[str]` (the `if timestamp:` guards). -/
def pyTruthyOptStr : Option String → Bool
  | none => false
  | some s => s != ""

/-- Model of `response.raise_for_status()`: raises `httpx.HTTPStatusError` (carrying
the response) unless the status code is a 2xx success. -/
def raiseForStatus (status : Nat) (text : String) (body : Option Json) :
    Except PyExc Unit :=
  if 200 ≤ status ∧ status < 300 then .ok ()
  else .error (.httpStatusError status text body)

/-- Model of `response.json()`: the decoded body, raising (JSONDecodeError, modelled
as a generic exception) when the body text is not valid JSON. -/
def parseJson (text : String) (body : Option Json) : Except PyExc Json :=
  match body with
  | some j => .ok j
  | none => .error (.other ("JSONDecodeError: " ++ text))

/-- Python `data.get(...)` attribute access on the decoded body: raises
AttributeError when the body is not a dict. -/
def ensureObj (data : Json) : Except PyExc Unit :=
  match data with
  | .obj _ => .ok ()
  | _ => .error (.other "AttributeError: no attribute get")

/-- Python `data[k]` on a dict: KeyError when the key is absent. -/
def pyKey (data : Json) (k : String) : Except PyExc Json :=
  match data.lookupKey k with
  | some v => .ok v
  | none => .error (.other ("KeyError: " ++ k))

/-- Python `x > 0` on a decoded JSON value: ints compare, booleans coerce to
0/1, anything else raises TypeError. -/
def pyGtZero : Json → Except PyExc Bool
  | .num n => .ok (decide (0 < n))
  | .bool b => .ok b
  | _ => .error (.other "TypeError: unorderable types")

/-- Python `x == 0` on a decoded JSON value (never raises; True is 1 and
False is 0). -/
def pyEqZero : Json → Bool
  | .num n => n == 0
  | .bool b => !b
  | _ => false

/-- Python `data.get("error") or data.get("message", default)` with the
generic failure phrase of the adapters as default. -/
def errOrMessage (data : Json) : Json :=
  let e := data.pyGet "error"
  if e.pyTruthy then e
  else data.pyGetD "message" (.str "Failed to fetch data from Polygon API")

/-- The adapter boundary: the value of the `try` statement, with the
`except` clauses given by `handler`. -/
def pyBoundary (handler : PyExc → Json) : Except PyExc Json → Json
  | .ok j => j
  | .error e => handler e

def BASE_URL : String := "https://api.polygon.io"

/-! ### src/tools/ohlcv_tools.py -/

/-- The `else` branch shared by the OHLCV v2 classifiers:
`{"error": data.get("error") or data.get("message", <default>), "details": data}`. -/
def v2ErrorDetails (data : Json) : Json :=
  .obj [("error", errOrMessage data), ("details", data)]

/-- The `elif`/`else` chain of `get_previous_day_bar` (reached when the first
condition is false): `data.get("status") == "OK" and data["resultsCount"] == 0`
(the subscript raises KeyError when absent) yields the no-data message,
otherwise the error/details dict. -/
def prevDayElif (ticker : String) (data : Json) : Except PyExc Json :=
  if data.getEq "status" "OK" then
    match pyKey data "resultsCount" with
    | .error e => .error e
    | .ok rc =>
      if pyEqZero rc then
        .ok (.obj [("message",
          .str ("No previous day bar data found for " ++ ticker ++ "."))])
      else .ok (v2ErrorDetails data)
  else .ok (v2ErrorDetails data)

/-- The response classification of `get_previous_day_bar` applied to the
decoded body: `if data.get("status") == "OK" and "results" in data and
data["resultsCount"] > 0: return data["results"][0]`, with the `elif`/`else`
chain in `prevDayElif`. -/
def prevDayBranch (ticker : String) (data : Json) : Except PyExc Json :=
  if data.getEq "status" "OK" && data.hasKey "results" then
    match pyKey data "resultsCount" with
    | .error e => .error e
    | .ok rc =>
      match pyGtZero rc with
      | .error e => .error e
      | .ok true =>
        match pyKey data "results" with
        | .error e => .error e
        | .ok rs =>
          match rs with
          | .arr (x :: _) => .ok x
          | .arr [] => .error (.other "IndexError: list index out of range")
          | _ => .error (.other "TypeError: object is not subscriptable")
      | .ok false => prevDayElif ticker data
  else prevDayElif ticker data

/-- The `try` body of `get_previous_day_bar`: `client.get` (may raise
RequestError), `raise_for_status()`, `response.json()`, then the envelope
classification (whose first step, `data.get`, raises on non-dict bodies). -/
def prevDayTry (ticker : String) (r : HttpResult) : Except PyExc Json :=
  match r with
  | .requestError d => .error (.requestError d)
  | .response status text body =>
    match raiseForStatus status text body with
    | .error e => .error e
    | .ok _ =>
      match parseJson text body with
      | .error e => .error e
      | .ok data =>
        match ensureObj data with
        | .error e => .error e
        | .ok _ => prevDayBranch ticker data

/-- The `except` clauses shared by `get_previous_day_bar`, `get_custom_bars`
and `get_daily_market_summary`: HTTPStatusError yields the status-code error
with the body text as message; RequestError yields the connection error;
anything else yields the generic error dict. -/
def ohlcvExcept : PyExc → Json
  | .httpStatusError status text _ =>
    .obj [("error", .str ("Polygon API error: " ++ toString status)),
          ("message", .str text)]
  | .requestError d =>
    .obj [("error", .str "Failed to connect to Polygon API"),
          ("message", .str d)]
  | .other _ => .obj [("error", .str "An unexpected error occurred.")]

/-- Adapter `get_previous_day_bar(ticker, adjusted=True)` from
src/tools/ohlcv_tools.py, as a function of the module-level API key. -/
def get_previous_day_bar (apiKey : Option String) (ticker : String)
    (adjusted : Option Bool := some true) : Call :=
  if apiKeyMissing apiKey then
    .noRequest (.obj [("error", .str "Polygon API key is not configured.")])
  else
    .request
      { url := BASE_URL ++ "/v2/aggs/ticker/" ++ ticker ++ "/prev"
        params := [("adjusted", .str (pyStrOptBool adjusted)),
                   ("apiKey", .str (apiKey.getD ""))]
        headers := [] }
      (fun r => pyBoundary ohlcvExcept (prevDayTry ticker r))

/-- The response classification of `get_custom_bars` (and, identically, of
`get_daily_market_summary`): `if data.get("status") == "OK": return data`
else the error/details dict. -/
def v2FullBodyBranch (data : Json) : Except PyExc Json :=
  if data.getEq "status" "OK" then .ok data
  else .ok (v2ErrorDetails data)

/-- The `try` body shared by `get_custom_bars` and `get_daily_market_summary`. -/
def v2FullBodyTry (r : HttpResult) : Except PyExc Json :=
  match r with
  | .requestError d => .error (.requestError d)
  | .response status text body =>
    match raiseForStatus status text body with
    | .error e => .error e
    | .ok _ =>
      match parseJson text body with
      | .error e => .error e
      | .ok data =>
        match ensureObj data with
        | .error e => .error e
        | .ok _ => v2FullBodyBranch data

/-- Adapter `get_custom_bars(ticker, multiplier, timespan, from_date, to_date,
adjusted=True, sort="asc", limit=5000)` from src/tools/ohlcv_tools.py.
Note that `sort` is put into the params dict unconditionally (a Python
`None` when unset) and `limit` is sent as `str(limit)`. -/
def get_custom_bars (apiKey : Option String) (ticker : String)
    (multiplier : Int) (timespan from_date to_date : String)
    (adjusted : Option Bool := some true) (sort : Option String := some "asc")
    (limit : Option Int := some 5000) : Call :=
  if apiKeyMissing apiKey then
    .noRequest (.obj [("error", .str "Polygon API key is not configured.")])
  else
    .request
      { url := BASE_URL ++ "/v2/aggs/ticker/" ++ ticker ++ "/range/"
               ++ toString multiplier ++ "/" ++ timespan ++ "/" ++ from_date
               ++ "/" ++ to_date
        params := [("adjusted", .str (pyStrOptBool adjusted)),
                   ("sort", optStrPVal sort),
                   ("limit", .str (pyStrOptInt limit)),
                   ("apiKey", .str (apiKey.getD ""))]
        headers := [] }
      (fun r => pyBoundary ohlcvExcept (v2FullBodyTry r))

/-- Adapter `get_daily_market_summary(date, adjusted=True, include_otc=False)` from
src/tools/ohlcv_tools.py. -/
def get_daily_market_summary (apiKey : Option String) (date : String)
    (adjusted : Option Bool := some true)
    (include_otc : Option Bool := some false) : Call :=
  if apiKeyMissing apiKey then
    .noRequest (.obj [("error", .str "Polygon API key is not configured.")])
  else
    .request
      { url := BASE_URL ++ "/v2/aggs/grouped/locale/us/market/stocks/" ++ date
        params := [("adjusted", .str (pyStrOptBool adjusted)),
                   ("includeOTC", .str (pyStrOptBool include_otc)),
                   ("apiKey", .str (apiKey.getD ""))]
        headers := [] }
      (fun r => pyBoundary ohlcvExcept (v2FullBodyTry r))

/-- The response classification of `get_daily_ticker_summary`: status "OK"
returns the body; `status == "ERROR" or "message" in data` returns
`{"error": data.get("message", <default>), "details": data}`; otherwise the
unexpected-format error dict. -/
def tickerSummaryBranch (data : Json) : Except PyExc Json :=
  if data.getEq "status" "OK" then .ok data
  else if data.getEq "status" "ERROR" || data.hasKey "message" then
    .ok (.obj [("error",
          data.pyGetD "message" (.str "Failed to fetch data from Polygon API")),
        ("details", data)])
  else
    .ok (.obj [("error",
          .str "Failed to fetch data from Polygon API or unexpected response format"),
        ("details", data)])

/-- The `try` body of `get_daily_ticker_summary`.  Faithful to the ordering in the source: `data = response.json()` runs BEFORE `response.raise_for_status()`,
so a non-JSON error body raises JSONDecodeError first. -/
def tickerSummaryTry (r : HttpResult) : Except PyExc Json :=
  match r with
  | .requestError d => .error (.requestError d)
  | .response status text body =>
    match parseJson text body with
    | .error e => .error e
    | .ok data =>
      match raiseForStatus status text body with
      | .error e => .error e
      | .ok _ =>
        match ensureObj data with
        | .error e => .error e
        | .ok _ => tickerSummaryBranch data

/-- The `except` clauses of `get_daily_ticker_summary`.  On HTTPStatusError
the handler re-parses the response body as JSON to extract a nested message
(falling back to the raw text when the body is not JSON or not a dict). -/
def tickerSummaryExcept : PyExc → Json
  | .httpStatusError status text body =>
    match body with
    | some errorData =>
      match errorData with
      | .obj _ =>
        .obj [("error", .str ("Polygon API error: " ++ toString status)),
              ("message", errorData.pyGetD "message" (.str text)),
              ("details", errorData)]
      | _ =>
        .obj [("error", .str ("Polygon API error: " ++ toString status)),
              ("message", .str text)]
    | none =>
      .obj [("error", .str ("Polygon API error: " ++ toString status)),
            ("message", .str text)]
  | .requestError d =>
    .obj [("error", .str "Failed to connect to Polygon API"),
          ("message", .str d)]
  | .other _ => .obj [("error", .str "An unexpected error occurred.")]

/-- Adapter `get_daily_ticker_summary(ticker, date, adjusted=True)` from
src/tools/ohlcv_tools.py (the legacy v1 open-close endpoint). -/
def get_daily_ticker_summary (apiKey : Option String) (ticker date : String)
    (adjusted : Option Bool := some true) : Call :=
  if apiKeyMissing apiKey then
    .noRequest (.obj [("error", .str "Polygon API key is not configured.")])
  else
    .request
      { url := BASE_URL ++ "/v1/open-close/" ++ ticker ++ "/" ++ date
        params := [("adjusted", .str (pyStrOptBool adjusted)),
                   ("apiKey", .str (apiKey.getD ""))]
        headers := [] }
      (fun r => pyBoundary tickerSummaryExcept (tickerSummaryTry r))

/-! ### src/tools/technical_indicator_tools.py -/

/-- The `try` body of `_fetch_indicator_data`: `client.get`,
`raise_for_status()`, then `return response.json()` with no envelope
classification at all. -/
def fetchIndicatorTry (r : HttpResult) : Except PyExc Json :=
  match r with
  | .requestError d => .error (.requestError d)
  | .response status text body =>
    match raiseForStatus status text body with
    | .error e => .error e
    | .ok _ => parseJson text body

/-- The `except` clauses of `_fetch_indicator_data`: only HTTPStatusError and
a generic `except Exception` — a transport-level `httpx.RequestError` falls
into the generic clause (there is no dedicated RequestError clause here). -/
def fetchIndicatorExcept : PyExc → Json
  | .httpStatusError status text _ =>
    .obj [("error", .str ("API request failed with status "
          ++ toString status ++ ": " ++ text))]
  | .requestError d =>
    .obj [("error", .str ("An unexpected error occurred: " ++ d))]
  | .other d =>
    .obj [("error", .str ("An unexpected error occurred: " ++ d))]

/-- Helper `_fetch_indicator_data(indicator_path, params)` from
src/tools/technical_indicator_tools.py: checks the module-level key, then
sends the given params with the credential in an `Authorization: Bearer`
header (not as a query parameter). -/
def fetchIndicatorData (apiKey : Option String) (indicator_path : String)
    (params : List (String × PVal)) : Call :=
  if apiKeyMissing apiKey then
    .noRequest (.obj [("error", .str "POLYGON_API_KEY not set")])
  else
    .request
      { url := BASE_URL ++ indicator_path
        params := params
        headers := [("Authorization", "Bearer " ++ apiKey.getD "")] }
      (fun r => pyBoundary fetchIndicatorExcept (fetchIndicatorTry r))

/-- The optional timestamp filters appended by each indicator adapter via
its `if timestamp: params["timestamp"] = timestamp` block (Python truthiness:
`None` and the empty string are both skipped). -/
def timestampFilterParams (timestamp timestamp_gte timestamp_gt timestamp_lte
    timestamp_lt : Option String) : List (String × PVal) :=
  (if pyTruthyOptStr timestamp
    then [("timestamp", PVal.str (timestamp.getD ""))] else [])
  ++ (if pyTruthyOptStr timestamp_gte
    then [("timestamp.gte", PVal.str (timestamp_gte.getD ""))] else [])
  ++ (if pyTruthyOptStr timestamp_gt
    then [("timestamp.gt", PVal.str (timestamp_gt.getD ""))] else [])
  ++ (if pyTruthyOptStr timestamp_lte
    then [("timestamp.lte", PVal.str (timestamp_lte.getD ""))] else [])
  ++ (if pyTruthyOptStr timestamp_lt
    then [("timestamp.lt", PVal.str (timestamp_lt.getD ""))] else [])

/-- Final `params = {k: v for k, v in params.items() if v is not None}` step
of every indicator adapter. -/
def dropNoneParams (params : List (String × PVal)) : List (String × PVal) :=
  params.filter (fun p => p.2 != PVal.pyNone)

/-- The params dict built by `get_sma` (and, with the same literal code, by
`get_ema` and `get_rsi`): the base dict in insertion order, the truthy
timestamp filters, then the None-dropping comprehension.  Note `adjusted` and
`expand_underlying` are stringified BEFORE the None filter, so an unset
boolean is sent as the string "none". -/
def singleWindowIndicatorParams (timestamp timestamp_gte timestamp_gt
    timestamp_lte timestamp_lt timespan : Option String)
    (adjusted : Option Bool) (window : Option Int) (series_type : Option String)
    (expand_underlying : Option Bool) (order : Option String)
    (limit : Option Int) : List (String × PVal) :=
  dropNoneParams
    ([("timespan", optStrPVal timespan),
      ("adjusted", PVal.str (pyStrOptBool adjusted)),
      ("window", optIntPVal window),
      ("series_type", optStrPVal series_type),
      ("expand_underlying", PVal.str (pyStrOptBool expand_underlying)),
      ("order", optStrPVal order),
      ("limit", optIntPVal limit)]
     ++ timestampFilterParams timestamp timestamp_gte timestamp_gt
          timestamp_lte timestamp_lt)

/-- The params dict built by `get_macd`: as the single-window indicators but
with `short_window`, `long_window` and `signal_window`. -/
def macdIndicatorParams (timestamp timestamp_gte timestamp_gt
    timestamp_lte timestamp_lt timespan : Option String)
    (adjusted : Option Bool) (short_window long_window signal_window : Option Int)
    (series_type : Option String) (expand_underlying : Option Bool)
    (order : Option String) (limit : Option Int) : List (String × PVal) :=
  dropNoneParams
    ([("timespan", optStrPVal timespan),
      ("adjusted", PVal.str (pyStrOptBool adjusted)),
      ("short_window", optIntPVal short_window),
      ("long_window", optIntPVal long_window),
      ("signal_window", optIntPVal signal_window),
      ("series_type", optStrPVal series_type),
      ("expand_underlying", PVal.str (pyStrOptBool expand_underlying)),
      ("order", optStrPVal order),
      ("limit", optIntPVal limit)]
     ++ timestampFilterParams timestamp timestamp_gte timestamp_gt
          timestamp_lte timestamp_lt)

/-- Adapter `get_sma(stockTicker, ...)` from src/tools/technical_indicator_tools.py. -/
def get_sma (apiKey : Option String) (stockTicker : String)
    (timestamp timestamp_gte timestamp_gt timestamp_lte timestamp_lt :
      Option String := none)
    (timespan : Option String := some "day") (adjusted : Option Bool := some true)
    (window : Option Int := some 50) (series_type : Option String := some "close")
    (expand_underlying : Option Bool := some false)
    (order : Option String := some "desc") (limit : Option Int := some 10) :
    Call :=
  fetchIndicatorData apiKey ("/v1/indicators/sma/" ++ stockTicker)
    (singleWindowIndicatorParams timestamp timestamp_gte timestamp_gt
      timestamp_lte timestamp_lt timespan adjusted window series_type
      expand_underlying order limit)

/-- Adapter `get_ema(stockTicker, ...)` from src/tools/technical_indicator_tools.py
(its body is literally the SMA code with the path segment "ema"). -/
def get_ema (apiKey : Option String) (stockTicker : String)
    (timestamp timestamp_gte timestamp_gt timestamp_lte timestamp_lt :
      Option String := none)
    (timespan : Option String := some "day") (adjusted : Option Bool := some true)
    (window : Option Int := some 50) (series_type : Option String := some "close")
    (expand_underlying : Option Bool := some false)
    (order : Option String := some "desc") (limit : Option Int := some 10) :
    Call :=
  fetchIndicatorData apiKey ("/v1/indicators/ema/" ++ stockTicker)
    (singleWindowIndicatorParams timestamp timestamp_gte timestamp_gt
      timestamp_lte timestamp_lt timespan adjusted window series_type
      expand_underlying order limit)

/-- Adapter `get_macd(stockTicker, ...)` from src/tools/technical_indicator_tools.py. -/
def get_macd (apiKey : Option String) (stockTicker : String)
    (timestamp timestamp_gte timestamp_gt timestamp_lte timestamp_lt :
      Option String := none)
    (timespan : Option String := some "day") (adjusted : Option Bool := some true)
    (short_window : Option Int := some 12) (long_window : Option Int := some 26)
    (signal_window : Option Int := some 9)
    (series_type : Option String := some "close")
    (expand_underlying : Option Bool := some false)
    (order : Option String := some "desc") (limit : Option Int := some 10) :
    Call :=
  fetchIndicatorData apiKey ("/v1/indicators/macd/" ++ stockTicker)
    (macdIndicatorParams timestamp timestamp_gte timestamp_gt
      timestamp_lte timestamp_lt timespan adjusted short_window long_window
      signal_window series_type expand_underlying order limit)

/-- Adapter `get_rsi(stockTicker, ...)` from src/tools/technical_indicator_tools.py
(the SMA code with the path segment "rsi" and default window 14). -/
def get_rsi (apiKey : Option String) (stockTicker : String)
    (timestamp timestamp_gte timestamp_gt timestamp_lte timestamp_lt :
      Option String := none)
    (timespan : Option String := some "day") (adjusted : Option Bool := some true)
    (window : Option Int := some 14) (series_type : Option String := some "close")
    (expand_underlying : Option Bool := some false)
    (order : Option String := some "desc") (limit : Option Int := some 10) :
    Call :=
  fetchIndicatorData apiKey ("/v1/indicators/rsi/" ++ stockTicker)
    (singleWindowIndicatorParams timestamp timestamp_gte timestamp_gt
      timestamp_lte timestamp_lt timespan adjusted window series_type
      expand_underlying order limit)

/-! ### Tool registration (src/server.py and register_tools in both modules) -/

/-- A tool definition dict as consumed by the registration loop:
`tool_def_info.get("tool_name")` (possibly absent) plus a description. -/
structure ToolDef where
  tool_name : Option String
  description : String

/-- What the loop body records for one tool definition. -/
inductive RegEvent where
  | skippedNoName
  | skippedNoHandler (name : String)
  | registered (name : String)
  | failed (name : String)
  deriving DecidableEq, Repr

/-- One iteration of the registration loop: `if not tool_name: continue`,
`if not handler_func: continue`, then `try: mcp.tool(...) except Exception:
log and continue`.  `hasHandler` models `TOOL_HANDLERS.get(tool_name)` being
truthy and `regFails` models `mcp_instance.tool(...)` raising. -/
def registerStep (hasHandler : String → Bool) (regFails : String → Bool)
    (td : ToolDef) : RegEvent :=
  match td.tool_name with
  | none => .skippedNoName
  | some n =>
    if n == "" then .skippedNoName
    else if !hasHandler n then .skippedNoHandler n
    else if regFails n then .failed n
    else .registered n

/-- The registration loop: every definition in the list is processed in
order; a failure is recorded and the loop continues. -/
def registerTools (hasHandler : String → Bool) (regFails : String → Bool)
    (defs : List ToolDef) : List RegEvent :=
  defs.map (registerStep hasHandler regFails)

/-- Value of `registered_count` after the loop. -/
def registeredCount (events : List RegEvent) : Nat :=
  events.countP (fun e => match e with | .registered _ => true | _ => false)

/-! ### Module import and the process environment -/

/-- The state captured by `src/tools/ohlcv_tools.py` line 7 and
`src/tools/technical_indicator_tools.py` line 11 at import time:
`POLYGON_API_KEY = os.environ.get("POLYGON_API_KEY")` (both modules read the
same variable, so they capture the same value). -/
structure ToolsModule where
  polygonApiKey : Option String

/-- Importing the tools modules captures the environment variable once. -/
def importToolsModule (env : String → Option String) : ToolsModule :=
  { polygonApiKey := env "POLYGON_API_KEY" }

/-- A running process: the imported module state plus the live environment. -/
structure Process where
  module : ToolsModule
  env : String → Option String

/-- Process start: the tools modules are imported against the then-current
environment. -/
def startProcess (env : String → Option String) : Process :=
  { module := importToolsModule env, env := env }

/-- Setting an environment variable after import mutates only the live
environment, never the already-imported module state. -/
def procSetEnv (p : Process) (k v : String) : Process :=
  { p with env := fun x => if x == k then some v else p.env x }

/-- Unsetting an environment variable after import. -/
def procUnsetEnv (p : Process) (k : String) : Process :=
  { p with env := fun x => if x == k then none else p.env x }

/-- An adapter call inside the process: every adapter reads the module-level
`POLYGON_API_KEY`, not the live environment. -/
def procCallPrevDay (p : Process) (ticker : String) (adjusted : Option Bool) :
    Call :=
  get_previous_day_bar p.module.polygonApiKey ticker adjusted

/-- Adapter `get_sma` invoked inside the process (all keyword arguments defaulted). -/
def procCallSma (p : Process) (stockTicker : String) : Call :=
  get_sma p.module.polygonApiKey stockTicker

/-- Adapter `get_custom_bars` invoked inside the process. -/
def procCallCustomBars (p : Process) (ticker : String) (multiplier : Int)
    (timespan from_date to_date : String) : Call :=
  get_custom_bars p.module.polygonApiKey ticker multiplier timespan
    from_date to_date

/-- Adapter `get_daily_market_summary` invoked inside the process. -/
def procCallMarketSummary (p : Process) (date : String) : Call :=
  get_daily_market_summary p.module.polygonApiKey date

/-- Adapter `get_daily_ticker_summary` invoked inside the process. -/
def procCallTickerSummary (p : Process) (ticker date : String) : Call :=
  get_daily_ticker_summary p.module.polygonApiKey ticker date

/-- Adapter `get_ema` invoked inside the process (keyword arguments defaulted). -/
def procCallEma (p : Process) (stockTicker : String) : Call :=
  get_ema p.module.polygonApiKey stockTicker

/-- Adapter `get_macd` invoked inside the process (keyword arguments defaulted). -/
def procCallMacd (p : Process) (stockTicker : String) : Call :=
  get_macd p.module.polygonApiKey stockTicker

/-- Adapter `get_rsi` invoked inside the process (keyword arguments defaulted). -/
def procCallRsi (p : Process) (stockTicker : String) : Call :=
  get_rsi p.module.polygonApiKey stockTicker

/-! ### Abbreviations for concrete values used in the theorems -/

/-- The configuration-error dict of the four OHLCV adapters. -/
def ohlcvConfigError : Json :=
  .obj [("error", .str "Polygon API key is not configured.")]

/-- The configuration-error dict of `_fetch_indicator_data`. -/
def indicatorConfigError : Json :=
  .obj [("error", .str "POLYGON_API_KEY not set")]

/-- A well-formed empty success envelope:
`{"status":"OK","results":[],"resultsCount":0}`. -/
def zeroResultsBody : Json :=
  .obj [("status", .str "OK"), ("results", .arr []), ("resultsCount", .num 0)]

/-- A well-formed single-result success envelope around `item`. -/
def oneResultBody (item : Json) : Json :=
  .obj [("status", .str "OK"), ("results", .arr [item]), ("resultsCount", .num 1)]

/-- The upstream logical-error body from the example in the spec:
`{"status":"ERROR","error":"Unknown ticker symbol: X"}`. -/
def unknownTickerBody : Json :=
  .obj [("status", .str "ERROR"), ("error", .str "Unknown ticker symbol: X")]

/-- Whether a parameter name is one of the five optional timestamp filters of
the indicator adapters. -/
def isTimestampFilterKey (k : String) : Bool :=
  k == "timestamp" || k == "timestamp.gte" || k == "timestamp.gt"
    || k == "timestamp.lte" || k == "timestamp.lt"

/-! ## Theorems -/

/-! ### Helper lemmas -/

theorem ohlcvExcept_isObj (e : PyExc) : (ohlcvExcept e).isObj = true := by
  cases e <;> rfl

theorem tickerSummaryExcept_isObj (e : PyExc) :
    (tickerSummaryExcept e).isObj = true := by
  cases e with
  | httpStatusError status text body =>
    cases body with
    | none => rfl
    | some errorData => cases errorData <;> rfl
  | requestError d => rfl
  | other d => rfl

theorem fetchIndicatorExcept_isObj (e : PyExc) :
    (fetchIndicatorExcept e).isObj = true := by
  cases e <;> rfl

theorem pyBoundary_safe (handler : PyExc → Json)
    (hh : ∀ e, (handler e).isObj = true) (x : Except PyExc Json) :
    (pyBoundary handler x).isObj = true ∨ x = .ok (pyBoundary handler x) := by
  cases x with
  | ok j => exact Or.inr rfl
  | error e => exact Or.inl (hh e)

theorem adapter_safe (k : Option String) (cfg : Json) (req : Request)
    (handler : PyExc → Json) (tryB : HttpResult → Except PyExc Json)
    (hc : cfg.isObj = true) (hh : ∀ e, (handler e).isObj = true)
    (r : HttpResult) :
    (((if apiKeyMissing k then Call.noRequest cfg
        else Call.request req (fun r2 => pyBoundary handler (tryB r2))).outcome
          r).isObj = true) ∨
    tryB r = .ok ((if apiKeyMissing k then Call.noRequest cfg
        else Call.request req (fun r2 => pyBoundary handler (tryB r2))).outcome
          r) := by
  by_cases hk : apiKeyMissing k = true
  · simp only [hk, if_true, Call.outcome]
    exact Or.inl hc
  · simp only [Bool.not_eq_true] at hk
    simp only [hk, Bool.false_eq_true, if_false, Call.outcome]
    exact pyBoundary_safe handler hh (tryB r)

/-- C1 (confirmed): with no credential configured, every one of the eight
adapters performs zero network requests and returns a mapping whose only key
is `error`. -/
theorem C1_no_credential_no_request
    (ticker date from_date to_date timespan stockTicker : String)
    (multiplier : Int) (adjusted include_otc expand_underlying : Option Bool)
    (sort ts1 ts2 ts3 ts4 ts5 tsp series_type ord : Option String)
    (lim window short_window long_window signal_window : Option Int) :
    get_previous_day_bar none ticker adjusted =
      Call.noRequest ohlcvConfigError ∧
    get_custom_bars none ticker multiplier timespan from_date to_date
        adjusted sort lim = Call.noRequest ohlcvConfigError ∧
    get_daily_market_summary none date adjusted include_otc =
      Call.noRequest ohlcvConfigError ∧
    get_daily_ticker_summary none ticker date adjusted =
      Call.noRequest ohlcvConfigError ∧
    get_sma none stockTicker ts1 ts2 ts3 ts4 ts5 tsp adjusted window
        series_type expand_underlying ord lim =
      Call.noRequest indicatorConfigError ∧
    get_ema none stockTicker ts1 ts2 ts3 ts4 ts5 tsp adjusted window
        series_type expand_underlying ord lim =
      Call.noRequest indicatorConfigError ∧
    get_macd none stockTicker ts1 ts2 ts3 ts4 ts5 tsp adjusted short_window
        long_window signal_window series_type expand_underlying ord lim =
      Call.noRequest indicatorConfigError ∧
    get_rsi none stockTicker ts1 ts2 ts3 ts4 ts5 tsp adjusted window
        series_type expand_underlying ord lim =
      Call.noRequest indicatorConfigError :=
  ⟨rfl, rfl, rfl, rfl, rfl, rfl, rfl, rfl⟩

/-- C2 counterexample: on an HTTP 200 response whose valid-JSON body is the
bare number 5 (a malformed envelope), `get_sma` returns that number — not a
structured dict. -/
theorem C2_counterexample :
    (get_sma (some "k") "AAPL").outcome
        (.response 200 "5" (some (.num 5))) = Json.num 5 ∧
    (Json.num 5).isObj = false :=
  ⟨rfl, rfl⟩

/-- C2 amended: no adapter lets an exception escape its boundary — for every
transport outcome the call either returns one of its except-clause dicts
(always a structured dict) or the try body succeeded and its value is
returned as-is (which for a malformed 2xx success envelope need not be a
dict). -/
theorem C2_no_exception_escapes (apiKey : Option String)
    (ticker date from_date to_date timespan stockTicker : String)
    (multiplier : Int) (adjusted include_otc expand_underlying : Option Bool)
    (sort ts1 ts2 ts3 ts4 ts5 tsp series_type ord : Option String)
    (lim window short_window long_window signal_window : Option Int)
    (r : HttpResult) :
    ((((get_previous_day_bar apiKey ticker adjusted).outcome r).isObj = true) ∨
      prevDayTry ticker r =
        .ok ((get_previous_day_bar apiKey ticker adjusted).outcome r)) ∧
    ((((get_custom_bars apiKey ticker multiplier timespan from_date to_date
          adjusted sort lim).outcome r).isObj = true) ∨
      v2FullBodyTry r =
        .ok ((get_custom_bars apiKey ticker multiplier timespan from_date
          to_date adjusted sort lim).outcome r)) ∧
    ((((get_daily_market_summary apiKey date adjusted include_otc).outcome
          r).isObj = true) ∨
      v2FullBodyTry r =
        .ok ((get_daily_market_summary apiKey date adjusted
          include_otc).outcome r)) ∧
    ((((get_daily_ticker_summary apiKey ticker date adjusted).outcome
          r).isObj = true) ∨
      tickerSummaryTry r =
        .ok ((get_daily_ticker_summary apiKey ticker date adjusted).outcome
          r)) ∧
    ((((get_sma apiKey stockTicker ts1 ts2 ts3 ts4 ts5 tsp adjusted window
          series_type expand_underlying ord lim).outcome r).isObj = true) ∨
      fetchIndicatorTry r =
        .ok ((get_sma apiKey stockTicker ts1 ts2 ts3 ts4 ts5 tsp adjusted
          window series_type expand_underlying ord lim).outcome r)) ∧
    ((((get_ema apiKey stockTicker ts1 ts2 ts3 ts4 ts5 tsp adjusted window
          series_type expand_underlying ord lim).outcome r).isObj = true) ∨
      fetchIndicatorTry r =
        .ok ((get_ema apiKey stockTicker ts1 ts2 ts3 ts4 ts5 tsp adjusted
          window series_type expand_underlying ord lim).outcome r)) ∧
    ((((get_macd apiKey stockTicker ts1 ts2 ts3 ts4 ts5 tsp adjusted
          short_window long_window signal_window series_type
          expand_underlying ord lim).outcome r).isObj = true) ∨
      fetchIndicatorTry r =
        .ok ((get_macd apiKey stockTicker ts1 ts2 ts3 ts4 ts5 tsp adjusted
          short_window long_window signal_window series_type
          expand_underlying ord lim).outcome r)) ∧
    ((((get_rsi apiKey stockTicker ts1 ts2 ts3 ts4 ts5 tsp adjusted window
          series_type expand_underlying ord lim).outcome r).isObj = true) ∨
      fetchIndicatorTry r =
        .ok ((get_rsi apiKey stockTicker ts1 ts2 ts3 ts4 ts5 tsp adjusted
          window series_type expand_underlying ord lim).outcome r)) :=
  ⟨adapter_safe apiKey ohlcvConfigError _ ohlcvExcept (prevDayTry ticker) rfl
      ohlcvExcept_isObj r,
   adapter_safe apiKey ohlcvConfigError _ ohlcvExcept v2FullBodyTry rfl ohlcvExcept_isObj r,
   adapter_safe apiKey ohlcvConfigError _ ohlcvExcept v2FullBodyTry rfl ohlcvExcept_isObj r,
   adapter_safe apiKey ohlcvConfigError _ tickerSummaryExcept tickerSummaryTry rfl
      tickerSummaryExcept_isObj r,
   adapter_safe apiKey indicatorConfigError _ fetchIndicatorExcept fetchIndicatorTry rfl
      fetchIndicatorExcept_isObj r,
   adapter_safe apiKey indicatorConfigError _ fetchIndicatorExcept fetchIndicatorTry rfl
      fetchIndicatorExcept_isObj r,
   adapter_safe apiKey indicatorConfigError _ fetchIndicatorExcept fetchIndicatorTry rfl
      fetchIndicatorExcept_isObj r,
   adapter_safe apiKey indicatorConfigError _ fetchIndicatorExcept fetchIndicatorTry rfl
      fetchIndicatorExcept_isObj r⟩

/-- C3 counterexample: `get_sma` does reach the network, yet its outgoing
request has no `apiKey` query parameter and no parameter at all carrying the
credential value — the key travels in a header instead. -/
theorem C3_counterexample :
    (get_sma (some "k") "AAPL").isRequest = true ∧
    (get_sma (some "k") "AAPL").params.lookup "apiKey" = none ∧
    (get_sma (some "k") "AAPL").params.all
      (fun p => p.2 != PVal.str "k") = true ∧
    (get_sma (some "k") "AAPL").headers.lookup "Authorization" =
      some "Bearer k" :=
  ⟨rfl, rfl, rfl, rfl⟩

/-- C3 amended: every call that reaches the network carries the credential,
but only the four OHLCV adapters attach it as the `apiKey` query parameter;
the four indicator adapters attach it as an `Authorization: Bearer` request
header instead. -/
theorem C3_credential_attached (s : String) (h : s ≠ "")
    (ticker date from_date to_date timespan stockTicker : String)
    (multiplier : Int) (adjusted include_otc expand_underlying : Option Bool)
    (sort ts1 ts2 ts3 ts4 ts5 tsp series_type ord : Option String)
    (lim window short_window long_window signal_window : Option Int) :
    (get_previous_day_bar (some s) ticker adjusted).params.lookup "apiKey" =
      some (PVal.str s) ∧
    (get_custom_bars (some s) ticker multiplier timespan from_date to_date
        adjusted sort lim).params.lookup "apiKey" = some (PVal.str s) ∧
    (get_daily_market_summary (some s) date adjusted
        include_otc).params.lookup "apiKey" = some (PVal.str s) ∧
    (get_daily_ticker_summary (some s) ticker date adjusted).params.lookup
        "apiKey" = some (PVal.str s) ∧
    (get_sma (some s) stockTicker ts1 ts2 ts3 ts4 ts5 tsp adjusted window
        series_type expand_underlying ord lim).headers.lookup
        "Authorization" = some ("Bearer " ++ s) ∧
    (get_ema (some s) stockTicker ts1 ts2 ts3 ts4 ts5 tsp adjusted window
        series_type expand_underlying ord lim).headers.lookup
        "Authorization" = some ("Bearer " ++ s) ∧
    (get_macd (some s) stockTicker ts1 ts2 ts3 ts4 ts5 tsp adjusted
        short_window long_window signal_window series_type expand_underlying
        ord lim).headers.lookup "Authorization" = some ("Bearer " ++ s) ∧
    (get_rsi (some s) stockTicker ts1 ts2 ts3 ts4 ts5 tsp adjusted window
        series_type expand_underlying ord lim).headers.lookup
        "Authorization" = some ("Bearer " ++ s) := by
  have hk : apiKeyMissing (some s) = false := by
    simp [apiKeyMissing, h]
  refine ⟨?_, ?_, ?_, ?_, ?_, ?_, ?_, ?_⟩ <;>
    simp [get_previous_day_bar, get_custom_bars, get_daily_market_summary,
      get_daily_ticker_summary, get_sma, get_ema, get_macd, get_rsi,
      fetchIndicatorData, hk, Call.params, Call.headers, List.lookup]

/-- C3 witness. -/
theorem C3_credential_attached_witness :
    (get_previous_day_bar (some "k") "AAPL" (some true)).params.lookup
        "apiKey" = some (PVal.str "k") ∧
    (get_custom_bars (some "k") "AAPL" 1 "day" "2023-01-05" "2023-01-06"
        (some true) (some "asc") (some 5000)).params.lookup "apiKey" =
      some (PVal.str "k") ∧
    (get_daily_market_summary (some "k") "2023-01-09" (some true)
        (some false)).params.lookup "apiKey" = some (PVal.str "k") ∧
    (get_daily_ticker_summary (some "k") "AAPL" "2023-01-09"
        (some true)).params.lookup "apiKey" = some (PVal.str "k") ∧
    (get_sma (some "k") "AAPL" none none none none none (some "day")
        (some true) (some 50) (some "close") (some false) (some "desc")
        (some 5000)).headers.lookup "Authorization" =
      some ("Bearer " ++ "k") ∧
    (get_ema (some "k") "AAPL" none none none none none (some "day")
        (some true) (some 50) (some "close") (some false) (some "desc")
        (some 5000)).headers.lookup "Authorization" =
      some ("Bearer " ++ "k") ∧
    (get_macd (some "k") "AAPL" none none none none none (some "day")
        (some true) (some 12) (some 26) (some 9) (some "close") (some false)
        (some "desc") (some 5000)).headers.lookup "Authorization" =
      some ("Bearer " ++ "k") ∧
    (get_rsi (some "k") "AAPL" none none none none none (some "day")
        (some true) (some 50) (some "close") (some false) (some "desc")
        (some 5000)).headers.lookup "Authorization" =
      some ("Bearer " ++ "k") :=
  C3_credential_attached "k" (by decide) "AAPL" "2023-01-09" "2023-01-05"
    "2023-01-06" "day" "AAPL" 1 (some true) (some false) (some false)
    (some "asc") none none none none none (some "day") (some "close")
    (some "desc") (some 5000) (some 50) (some 12) (some 26) (some 9)

/-- C4 counterexample: `get_custom_bars` called with `sort=None` and
`limit=None` still sends both parameters — `sort` with the Python `None`
value and `limit` as the string "None" — and `get_sma` called with
`adjusted=None` sends `adjusted` as the string "none". -/
theorem C4_counterexample :
    (get_custom_bars (some "k") "AAPL" 1 "day" "2023-01-05" "2023-01-06"
        (some true) none none).params.lookup "sort" = some PVal.pyNone ∧
    (get_custom_bars (some "k") "AAPL" 1 "day" "2023-01-05" "2023-01-06"
        (some true) none none).params.lookup "limit" =
      some (PVal.str "None") ∧
    (get_sma (some "k") "AAPL" none none none none none (some "day") none
        (some 50) (some "close") (some false) (some "desc")
        (some 10)).params.lookup "adjusted" = some (PVal.str "none") :=
  ⟨rfl, rfl, rfl⟩

/-- Every parameter surviving `dropNoneParams` has a non-None value. -/
theorem dropNoneParams_no_none (l : List (String × PVal)) :
    (dropNoneParams l).all (fun p => p.2 != PVal.pyNone) = true := by
  rw [List.all_eq_true]
  intro p hp
  exact (List.mem_filter.mp hp).2

/-- The params of an indicator call are either empty (no key configured) or
exactly the dict handed to `_fetch_indicator_data`. -/
theorem fetchIndicatorData_params (k : Option String) (path : String)
    (ps : List (String × PVal)) :
    (fetchIndicatorData k path ps).params = [] ∨
    (fetchIndicatorData k path ps).params = ps := by
  by_cases hk : apiKeyMissing k = true
  · exact Or.inl (by simp [fetchIndicatorData, hk, Call.params])
  · simp only [Bool.not_eq_true] at hk
    exact Or.inr (by simp [fetchIndicatorData, hk, Call.params])

theorem indicator_params_no_none_aux (k : Option String) (path : String)
    (ps : List (String × PVal)) (hps : ps.all (fun p => p.2 != PVal.pyNone)) :
    (fetchIndicatorData k path ps).params.all
      (fun p => p.2 != PVal.pyNone) = true := by
  rcases fetchIndicatorData_params k path ps with h | h <;> rw [h]
  · rfl
  · exact hps

theorem indicator_params_no_tsfilter_aux (k : Option String) (path : String)
    (ps : List (String × PVal))
    (hps : ps.any (fun p => isTimestampFilterKey p.1) = false) :
    (fetchIndicatorData k path ps).params.any
      (fun p => isTimestampFilterKey p.1) = false := by
  rcases fetchIndicatorData_params k path ps with h | h <;> rw [h]
  · rfl
  · exact hps

/-- C4 amended: the four indicator adapters send no parameter with a Python
`None` value, and with all timestamp filters unset no timestamp parameter is
sent; but a `None` boolean is stringified to "none" and sent, and the OHLCV
adapters never drop unset optionals — `get_custom_bars` always sends `sort`
(the raw optional value, Python `None` when unset) and `limit` (as
`str(limit)`, the string "None" when unset). -/
theorem C4_none_parameter_handling (s : String) (h : s ≠ "")
    (apiKey : Option String) (ticker stockTicker from_date to_date timespan :
      String) (multiplier : Int)
    (adjusted expand_underlying : Option Bool)
    (sort ts1 ts2 ts3 ts4 ts5 tsp series_type ord : Option String)
    (lim window short_window long_window signal_window : Option Int) :
    (get_sma apiKey stockTicker ts1 ts2 ts3 ts4 ts5 tsp adjusted window
        series_type expand_underlying ord lim).params.all
      (fun p => p.2 != PVal.pyNone) = true ∧
    (get_ema apiKey stockTicker ts1 ts2 ts3 ts4 ts5 tsp adjusted window
        series_type expand_underlying ord lim).params.all
      (fun p => p.2 != PVal.pyNone) = true ∧
    (get_macd apiKey stockTicker ts1 ts2 ts3 ts4 ts5 tsp adjusted
        short_window long_window signal_window series_type expand_underlying
        ord lim).params.all (fun p => p.2 != PVal.pyNone) = true ∧
    (get_rsi apiKey stockTicker ts1 ts2 ts3 ts4 ts5 tsp adjusted window
        series_type expand_underlying ord lim).params.all
      (fun p => p.2 != PVal.pyNone) = true ∧
    (get_sma apiKey stockTicker none none none none none tsp adjusted window
        series_type expand_underlying ord lim).params.any
      (fun p => isTimestampFilterKey p.1) = false ∧
    (get_macd apiKey stockTicker none none none none none tsp adjusted
        short_window long_window signal_window series_type expand_underlying
        ord lim).params.any (fun p => isTimestampFilterKey p.1) = false ∧
    (get_custom_bars (some s) ticker multiplier timespan from_date to_date
        adjusted sort lim).params.lookup "sort" = some (optStrPVal sort) ∧
    (get_custom_bars (some s) ticker multiplier timespan from_date to_date
        adjusted sort lim).params.lookup "limit" =
      some (PVal.str (pyStrOptInt lim)) := by
  have hk : apiKeyMissing (some s) = false := by
    simp [apiKeyMissing, h]
  refine ⟨indicator_params_no_none_aux _ _ _ (dropNoneParams_no_none _),
    indicator_params_no_none_aux _ _ _ (dropNoneParams_no_none _),
    indicator_params_no_none_aux _ _ _ (dropNoneParams_no_none _),
    indicator_params_no_none_aux _ _ _ (dropNoneParams_no_none _),
    indicator_params_no_tsfilter_aux _ _ _ ?_,
    indicator_params_no_tsfilter_aux _ _ _ ?_, ?_, ?_⟩
  · simp [singleWindowIndicatorParams, timestampFilterParams, dropNoneParams,
      pyTruthyOptStr, List.any_filter, isTimestampFilterKey]
  · simp [macdIndicatorParams, timestampFilterParams, dropNoneParams,
      pyTruthyOptStr, List.any_filter, isTimestampFilterKey]
  · simp [get_custom_bars, hk, Call.params, List.lookup]
  · simp [get_custom_bars, hk, Call.params, List.lookup]

/-- C4 witness. -/
theorem C4_none_parameter_handling_witness :
    (get_sma (some "k") "AAPL" none none none none none (some "day")
        (some true) (some 50) (some "close") (some false) (some "desc")
        (some 10)).params.all (fun p => p.2 != PVal.pyNone) = true ∧
    (get_ema (some "k") "AAPL" none none none none none (some "day")
        (some true) (some 50) (some "close") (some false) (some "desc")
        (some 10)).params.all (fun p => p.2 != PVal.pyNone) = true ∧
    (get_macd (some "k") "AAPL" none none none none none (some "day")
        (some true) (some 12) (some 26) (some 9) (some "close") (some false)
        (some "desc") (some 10)).params.all
      (fun p => p.2 != PVal.pyNone) = true ∧
    (get_rsi (some "k") "AAPL" none none none none none (some "day")
        (some true) (some 50) (some "close") (some false) (some "desc")
        (some 10)).params.all (fun p => p.2 != PVal.pyNone) = true ∧
    (get_sma (some "k") "AAPL" none none none none none (some "day")
        (some true) (some 50) (some "close") (some false) (some "desc")
        (some 10)).params.any (fun p => isTimestampFilterKey p.1) = false ∧
    (get_macd (some "k") "AAPL" none none none none none (some "day")
        (some true) (some 12) (some 26) (some 9) (some "close") (some false)
        (some "desc") (some 10)).params.any
      (fun p => isTimestampFilterKey p.1) = false ∧
    (get_custom_bars (some "k") "AAPL" 1 "day" "2023-01-05" "2023-01-06"
        (some true) none (some 10)).params.lookup "sort" =
      some (optStrPVal none) ∧
    (get_custom_bars (some "k") "AAPL" 1 "day" "2023-01-05" "2023-01-06"
        (some true) none (some 10)).params.lookup "limit" =
      some (PVal.str (pyStrOptInt (some 10))) :=
  C4_none_parameter_handling "k" (by decide) (some "k") "AAPL" "AAPL"
    "2023-01-05" "2023-01-06" "day" 1 (some true) (some false) none none
    none none none none (some "day") (some "close") (some "desc") (some 10)
    (some 50) (some 12) (some 26) (some 9)

/-- C5 counterexample: on a 2xx response with body
`{"status":"ERROR","error":"Unknown ticker symbol: X"}`, `get_sma` returns
the body itself — no `details` key and no re-shaping — and
`get_daily_ticker_summary` returns `error` equal to the generic failure
phrase (the body has no `message` key), not "Unknown ticker symbol: X". -/
theorem C5_counterexample :
    (get_sma (some "k") "AAPL").outcome
        (.response 200 "" (some unknownTickerBody)) = unknownTickerBody ∧
    unknownTickerBody.hasKey "details" = false ∧
    (get_daily_ticker_summary (some "k") "AAPL" "2023-01-09"
        (some true)).outcome (.response 200 "" (some unknownTickerBody)) =
      Json.obj [("error", Json.str "Failed to fetch data from Polygon API"),
                ("details", unknownTickerBody)] :=
  ⟨rfl, rfl, rfl⟩

/-- C5 amended: only the three v2 OHLCV adapters implement the claimed
classification — on a 2xx dict body whose `status` is not "OK" they return
`{"error": <body error or message or generic phrase>, "details": <body>}`,
and on the ERROR example body their `error` is "Unknown ticker symbol: X".
The indicator adapters return any 2xx body unchanged, and
`get_daily_ticker_summary` draws `error` from the `message` field of the body
(falling back to the generic phrase). -/
theorem C5_non_ok_status (st : Nat) (h1 : 200 ≤ st) (h2 : st < 300)
    (fs : List (String × Json))
    (h3 : (Json.obj fs).getEq "status" "OK" = false)
    (ticker date from_date to_date text : String) (adjusted : Option Bool) :
    (get_previous_day_bar (some "k") ticker adjusted).outcome
        (.response st text (some (.obj fs))) = v2ErrorDetails (.obj fs) ∧
    (get_custom_bars (some "k") ticker 1 "day" from_date to_date adjusted
        (some "asc") (some 5000)).outcome
        (.response st text (some (.obj fs))) = v2ErrorDetails (.obj fs) ∧
    (get_daily_market_summary (some "k") date adjusted
        (some false)).outcome (.response st text (some (.obj fs))) =
      v2ErrorDetails (.obj fs) ∧
    (get_sma (some "k") ticker).outcome
        (.response st text (some (.obj fs))) = Json.obj fs ∧
    (get_previous_day_bar (some "k") ticker adjusted).outcome
        (.response 200 text (some unknownTickerBody)) =
      Json.obj [("error", Json.str "Unknown ticker symbol: X"),
                ("details", unknownTickerBody)] ∧
    (get_custom_bars (some "k") ticker 1 "day" from_date to_date adjusted
        (some "asc") (some 5000)).outcome
        (.response 200 text (some unknownTickerBody)) =
      Json.obj [("error", Json.str "Unknown ticker symbol: X"),
                ("details", unknownTickerBody)] ∧
    (get_daily_market_summary (some "k") date adjusted
        (some false)).outcome (.response 200 text (some unknownTickerBody)) =
      Json.obj [("error", Json.str "Unknown ticker symbol: X"),
                ("details", unknownTickerBody)] ∧
    (get_daily_ticker_summary (some "k") ticker date adjusted).outcome
        (.response 200 text (some unknownTickerBody)) =
      Json.obj [("error", Json.str "Failed to fetch data from Polygon API"),
                ("details", unknownTickerBody)] := by
  refine ⟨?_, ?_, ?_, ?_, rfl, rfl, rfl, rfl⟩
  · simp [get_previous_day_bar, apiKeyMissing, Call.outcome, prevDayTry,
      raiseForStatus, h1, h2, parseJson, ensureObj, prevDayBranch,
      prevDayElif, h3, pyBoundary]
  · simp [get_custom_bars, apiKeyMissing, Call.outcome, v2FullBodyTry,
      raiseForStatus, h1, h2, parseJson, ensureObj, v2FullBodyBranch, h3,
      pyBoundary]
  · simp [get_daily_market_summary, apiKeyMissing, Call.outcome,
      v2FullBodyTry, raiseForStatus, h1, h2, parseJson, ensureObj,
      v2FullBodyBranch, h3, pyBoundary]
  · simp [get_sma, fetchIndicatorData, apiKeyMissing, Call.outcome,
      fetchIndicatorTry, raiseForStatus, h1, h2, parseJson, pyBoundary]

/-- C5 witness. -/
theorem C5_non_ok_status_witness :
    (get_previous_day_bar (some "k") "AAPL" (some true)).outcome
        (.response 200 "" (some (.obj [("status", Json.str "ERROR"),
          ("error", Json.str "Unknown ticker symbol: X")]))) =
      v2ErrorDetails (.obj [("status", Json.str "ERROR"),
        ("error", Json.str "Unknown ticker symbol: X")]) :=
  (C5_non_ok_status 200 (by decide) (by decide)
    [("status", Json.str "ERROR"),
     ("error", Json.str "Unknown ticker symbol: X")] rfl
    "AAPL" "2023-01-09" "2023-01-05" "2023-01-06" "" (some true)).1

/-- C6 counterexample: on the empty success envelope
`{"status":"OK","results":[],"resultsCount":0}`, `get_custom_bars` returns
the envelope unchanged — a mapping with no `message` key at all. -/
theorem C6_counterexample :
    (get_custom_bars (some "k") "AAPL" 1 "day" "2023-01-05" "2023-01-05"
        (some true) (some "asc") (some 5000)).outcome
        (.response 200 "" (some zeroResultsBody)) = zeroResultsBody ∧
    zeroResultsBody.hasKey "message" = false :=
  ⟨rfl, rfl⟩

/-- C6 amended: only `get_previous_day_bar` implements the zero-count
message and the single-result unwrapping; on the empty success envelope it
returns a message-only mapping with no `error` key, and on a one-result
envelope it returns the sole item unwrapped. The other adapters
(`get_custom_bars` shown, and likewise the indicator adapters) return the
full OK envelope unchanged, which carries neither a `message` nor an
`error` key. -/
theorem C6_empty_and_single_result (ticker from_date to_date text : String)
    (adjusted : Option Bool) (item : Json) :
    (get_previous_day_bar (some "k") ticker adjusted).outcome
        (.response 200 text (some zeroResultsBody)) =
      Json.obj [("message",
        Json.str ("No previous day bar data found for " ++ ticker ++ "."))] ∧
    (Json.obj [("message",
        Json.str ("No previous day bar data found for " ++ ticker
          ++ "."))]).hasKey "error" = false ∧
    (get_previous_day_bar (some "k") ticker adjusted).outcome
        (.response 200 text (some (oneResultBody item))) = item ∧
    (get_custom_bars (some "k") ticker 1 "day" from_date to_date adjusted
        (some "asc") (some 5000)).outcome
        (.response 200 text (some zeroResultsBody)) = zeroResultsBody ∧
    (get_sma (some "k") ticker).outcome
        (.response 200 text (some zeroResultsBody)) = zeroResultsBody ∧
    zeroResultsBody.hasKey "error" = false :=
  ⟨rfl, rfl, rfl, rfl, rfl, rfl⟩

/-- C7 counterexample: on a transport-level failure, `get_sma` has no
RequestError clause — the failure falls into the generic handler, so the
result has no `message` key and its `error` is not the connection-failure
phrase. -/
theorem C7_counterexample :
    (get_sma (some "k") "AAPL").outcome
        (.requestError "Connection timed out") =
      Json.obj [("error",
        Json.str "An unexpected error occurred: Connection timed out")] ∧
    (Json.obj [("error",
        Json.str "An unexpected error occurred: Connection timed out")]
      ).hasKey "message" = false :=
  ⟨rfl, rfl⟩

/-- C7 amended: the four OHLCV adapters return
`{"error": "Failed to connect to Polygon API", "message": <detail>}` on a
network-level failure (and the detail is non-empty whenever the transport
detail string is); the four indicator adapters surface the same failure through
their generic handler as a single-key
`{"error": "An unexpected error occurred: <detail>"}` with no `message`
key.  In both families the call raises nothing. -/
theorem C7_network_failure (d : String) (h : d ≠ "")
    (ticker date from_date to_date : String) (adjusted : Option Bool) :
    (get_previous_day_bar (some "k") ticker adjusted).outcome
        (.requestError d) =
      Json.obj [("error", Json.str "Failed to connect to Polygon API"),
                ("message", Json.str d)] ∧
    (get_custom_bars (some "k") ticker 1 "day" from_date to_date adjusted
        (some "asc") (some 5000)).outcome (.requestError d) =
      Json.obj [("error", Json.str "Failed to connect to Polygon API"),
                ("message", Json.str d)] ∧
    (get_daily_market_summary (some "k") date adjusted (some false)).outcome
        (.requestError d) =
      Json.obj [("error", Json.str "Failed to connect to Polygon API"),
                ("message", Json.str d)] ∧
    (get_daily_ticker_summary (some "k") ticker date adjusted).outcome
        (.requestError d) =
      Json.obj [("error", Json.str "Failed to connect to Polygon API"),
                ("message", Json.str d)] ∧
    (Json.str d).pyTruthy = true ∧
    (get_sma (some "k") ticker).outcome (.requestError d) =
      Json.obj [("error",
        Json.str ("An unexpected error occurred: " ++ d))] ∧
    (get_ema (some "k") ticker).outcome (.requestError d) =
      Json.obj [("error",
        Json.str ("An unexpected error occurred: " ++ d))] ∧
    (get_macd (some "k") ticker).outcome (.requestError d) =
      Json.obj [("error",
        Json.str ("An unexpected error occurred: " ++ d))] ∧
    (get_rsi (some "k") ticker).outcome (.requestError d) =
      Json.obj [("error",
        Json.str ("An unexpected error occurred: " ++ d))] ∧
    (Json.obj [("error",
        Json.str ("An unexpected error occurred: " ++ d))]).hasKey
      "message" = false := by
  refine ⟨rfl, rfl, rfl, rfl, ?_, rfl, rfl, rfl, rfl, rfl⟩
  simp [Json.pyTruthy, h]

/-- C7 witness. -/
theorem C7_network_failure_witness :
    (get_previous_day_bar (some "k") "AAPL" (some true)).outcome
        (.requestError "Connection refused") =
      Json.obj [("error", Json.str "Failed to connect to Polygon API"),
                ("message", Json.str "Connection refused")] :=
  (C7_network_failure "Connection refused" (by decide) "AAPL" "2023-01-09"
    "2023-01-05" "2023-01-06" (some true)).1

/-- C8: the claim matches the stated intent of the spec, but the source parses
the response body as JSON before calling `raise_for_status()`, so a 4xx/5xx
response with a non-JSON body (here a plain-text 404) never reaches the
HTTPStatusError handler — the JSONDecodeError is swallowed by the catch-all
and the status code and body text are lost.  With a valid-JSON error body
the claimed classification does happen (second conjunct). -/
theorem C8_legacy_status_check_after_json :
    (get_daily_ticker_summary (some "k") "AAPL" "2023-01-09"
        (some true)).outcome (.response 404 "Not Found" none) =
      Json.obj [("error", Json.str "An unexpected error occurred.")] ∧
    (get_daily_ticker_summary (some "k") "AAPL" "2023-01-09"
        (some true)).outcome (.response 404 "json-body"
          (some (.obj [("message", Json.str "Ticker not found.")]))) =
      Json.obj [("error", Json.str "Polygon API error: 404"),
                ("message", Json.str "Ticker not found."),
                ("details",
                  Json.obj [("message", Json.str "Ticker not found.")])] :=
  ⟨rfl, rfl⟩

/-- C9 (confirmed): the registration loop is a total function of the tool
list — it produces exactly one event per definition, the event for the i-th
tool depends only on that tool (so a registration failure for one tool never
prevents the remaining tools from being attempted), and a failing head
still lets the whole tail be processed. -/
theorem C9_registration_failures_isolated (hasHandler regFails :
      String → Bool) (defs : List ToolDef) (d : ToolDef)
    (rest : List ToolDef) (i : Nat) :
    (registerTools hasHandler regFails defs).length = defs.length ∧
    (registerTools hasHandler regFails defs)[i]? =
      (defs[i]?).map (registerStep hasHandler regFails) ∧
    registerTools hasHandler regFails (d :: rest) =
      registerStep hasHandler regFails d ::
        registerTools hasHandler regFails rest := by
  refine ⟨by simp [registerTools], ?_, rfl⟩
  simp [registerTools, List.getElem?_map]

/-- C10 (confirmed): the credential check reads the module-level value
captured when the tools modules were imported.  If `POLYGON_API_KEY` was
unset at import, every adapter call in that process fails fast with the
configuration error and performs no network I/O, even after the variable is
set in the live environment; conversely, if it was set (non-empty) at
import, unsetting it afterwards does not stop calls from reaching the
network. -/
theorem C10_import_time_credential_capture (env env2 : String → Option String)
    (henv : env "POLYGON_API_KEY" = none) (s : String)
    (henv2 : env2 "POLYGON_API_KEY" = some s) (hs : s ≠ "")
    (v ticker date from_date to_date : String) (multiplier : Int)
    (adjusted : Option Bool) :
    procCallPrevDay (procSetEnv (startProcess env) "POLYGON_API_KEY" v)
        ticker adjusted = Call.noRequest ohlcvConfigError ∧
    procCallCustomBars (procSetEnv (startProcess env) "POLYGON_API_KEY" v)
        ticker multiplier "day" from_date to_date =
      Call.noRequest ohlcvConfigError ∧
    procCallMarketSummary (procSetEnv (startProcess env) "POLYGON_API_KEY" v)
        date = Call.noRequest ohlcvConfigError ∧
    procCallTickerSummary (procSetEnv (startProcess env) "POLYGON_API_KEY" v)
        ticker date = Call.noRequest ohlcvConfigError ∧
    procCallSma (procSetEnv (startProcess env) "POLYGON_API_KEY" v) ticker =
      Call.noRequest indicatorConfigError ∧
    procCallEma (procSetEnv (startProcess env) "POLYGON_API_KEY" v) ticker =
      Call.noRequest indicatorConfigError ∧
    procCallMacd (procSetEnv (startProcess env) "POLYGON_API_KEY" v) ticker =
      Call.noRequest indicatorConfigError ∧
    procCallRsi (procSetEnv (startProcess env) "POLYGON_API_KEY" v) ticker =
      Call.noRequest indicatorConfigError ∧
    (procCallPrevDay (procUnsetEnv (startProcess env2) "POLYGON_API_KEY")
        ticker adjusted).isRequest = true ∧
    (procCallCustomBars (procUnsetEnv (startProcess env2) "POLYGON_API_KEY")
        ticker multiplier "day" from_date to_date).isRequest = true ∧
    (procCallMarketSummary (procUnsetEnv (startProcess env2)
        "POLYGON_API_KEY") date).isRequest = true ∧
    (procCallTickerSummary (procUnsetEnv (startProcess env2)
        "POLYGON_API_KEY") ticker date).isRequest = true ∧
    (procCallSma (procUnsetEnv (startProcess env2) "POLYGON_API_KEY")
        ticker).isRequest = true ∧
    (procCallEma (procUnsetEnv (startProcess env2) "POLYGON_API_KEY")
        ticker).isRequest = true ∧
    (procCallMacd (procUnsetEnv (startProcess env2) "POLYGON_API_KEY")
        ticker).isRequest = true ∧
    (procCallRsi (procUnsetEnv (startProcess env2) "POLYGON_API_KEY")
        ticker).isRequest = true := by
  have hk : apiKeyMissing (some s) = false := by simp [apiKeyMissing, hs]
  refine ⟨?_, ?_, ?_, ?_, ?_, ?_, ?_, ?_, ?_, ?_, ?_, ?_, ?_, ?_, ?_, ?_⟩ <;>
    simp [procCallPrevDay, procCallCustomBars, procCallMarketSummary,
      procCallTickerSummary, procCallSma, procCallEma, procCallMacd,
      procCallRsi, procSetEnv, procUnsetEnv, startProcess,
      importToolsModule, henv, henv2, get_previous_day_bar, get_custom_bars,
      get_daily_market_summary, get_daily_ticker_summary, get_sma, get_ema,
      get_macd, get_rsi, fetchIndicatorData, hk, hs, apiKeyMissing,
      Call.isRequest, ohlcvConfigError, indicatorConfigError]

/-- C10 witness. -/
theorem C10_import_time_credential_capture_witness :
    procCallPrevDay
        (procSetEnv (startProcess (fun _ => none)) "POLYGON_API_KEY" "LATER")
        "AAPL" (some true) = Call.noRequest ohlcvConfigError :=
  (C10_import_time_credential_capture (fun _ => none)
    (fun x => if x == "POLYGON_API_KEY" then some "key0" else none) rfl
    "key0" rfl (by decide) "LATER" "AAPL" "2023-01-09" "2023-01-05"
    "2023-01-06" 1 (some true)).1

end Polygon
